import Mathlib

/-!
Verification development for the smartnode repository.

Two subsystems are embedded:

1. `ActivityProc` — the per-validator beacon activity process
   (package `minipool`, file with `StartActivityProcess` /
   `onBeaconClientMessage`).  The process is an event-driven state
   machine; we embed it as a step function over parsed beacon server
   messages.  A Go runtime panic (close of an already-closed channel)
   is modelled as `Option.none`.

2. `Watchtower` — the solo-migration watchtower task
   (package `watchtower`, file with `checkSoloMigrations` /
   `scrubVacantMinipool` / `run`).  Classification is embedded as a
   pure function of the network-state snapshot; the transaction
   pipeline's external collaborators (contract bindings, gas
   estimation, the gas-price confirmation gate, submission and
   inclusion wait) are oracles supplied as an environment record.
   The single-flight guard of `run` is embedded as a small
   interleaving transition system.

Machine integers are modelled as `Nat` with explicit `% 2^64`
where uint64 wrap-around matters (the gwei balance arithmetic).
-/

namespace ActivityProc

/-- Parsed form of `beaconchain.ServerMessage` (fields `Message`,
`Pubkey`, `Status.Code`, `Action`, `Error`).  JSON decoding is done by
the collaborator codec; a payload that fails to decode is logged and
ignored by the Go handler, so it never reaches this level. -/
structure ServerMessage where
  message : String
  pubkey : String
  statusCode : String
  action : String
  errText : String
  deriving DecidableEq, Repr

/-- Events the process's select loop can receive: a
`beacon.client.connected` event or a `beacon.client.message` event
carrying a decoded server message. -/
inductive BusEvent
  | connected
  | message (m : ServerMessage)
  deriving DecidableEq, Repr

/-- Outbound `beaconchain.ClientMessage` values sent via `p.p.Beacon.Send`
(fields `Message` and `Pubkey`). -/
inductive OutMsg
  | clientMessage (message : String) (pubkey : String)
  deriving DecidableEq, Repr

/-- State of one `ActivityProcess`: its validator public key (hex),
the `validatorActive` flag, and whether the `stop` channel has been
closed.  The remaining Go fields (color printer, provider, done
channel reference) carry no state the claims depend on. -/
structure ActivityProcess where
  pubkeyHex : String
  validatorActive : Bool
  stopClosed : Bool
  deriving DecidableEq, Repr

/-- Initial state built by `StartActivityProcess`:
`validatorActive: false`, `stop` channel open. -/
def initProcess (pk : String) : ActivityProcess :=
  { pubkeyHex := pk, validatorActive := false, stopClosed := false }

/-- The `"validator_status"` arm of `onBeaconClientMessage`.  Returns
`none` for a Go runtime panic: the exit-family arm executes
`close(p.stop)`, which panics if `stop` is already closed. -/
def handleValidatorStatus (p : ActivityProcess) (m : ServerMessage) :
    Option (ActivityProcess × List OutMsg) :=
  if p.pubkeyHex ≠ m.pubkey then some (p, [])
  else if m.statusCode = "inactive" then
    some ({ p with validatorActive := false }, [])
  else if m.statusCode = "active" then
    some ({ p with validatorActive := true }, [])
  else if m.statusCode = "exited" ∨ m.statusCode = "withdrawable" ∨
      m.statusCode = "withdrawn" then
    if p.stopClosed then none
    else some ({ p with validatorActive := false, stopClosed := true }, [])
  else some (p, [])

/-- Handler `onBeaconClientMessage`: dispatch on `message.Message`.  The
`"success"` and `"error"` arms only log; unknown message types fall
out of the switch. -/
def onBeaconClientMessage (p : ActivityProcess) (m : ServerMessage) :
    Option (ActivityProcess × List OutMsg) :=
  if m.message = "validator_status" then handleValidatorStatus p m
  else if m.message = "epoch" then
    some (p, if p.validatorActive then
      [OutMsg.clientMessage "activity" p.pubkeyHex] else [])
  else some (p, [])

/-- Handler `onBeaconClientConnected`: unconditionally request validator
status for this key. -/
def onBeaconClientConnected (p : ActivityProcess) :
    ActivityProcess × List OutMsg :=
  (p, [OutMsg.clientMessage "get_validator_status" p.pubkeyHex])

/-- One iteration of the subscriber goroutine's select loop, for one
delivered event.  Note the loop can keep delivering pending message
events after `stop` has been closed: a Go `select` chooses uniformly
among ready cases, so the `stop` case is not guaranteed to preempt a
ready message channel. -/
def step (p : ActivityProcess) (e : BusEvent) :
    Option (ActivityProcess × List OutMsg) :=
  match e with
  | BusEvent.connected => some (onBeaconClientConnected p)
  | BusEvent.message m => onBeaconClientMessage p m

/-- Process a sequence of delivered events, accumulating all outbound
messages; `none` if any step panics. -/
def runEvents (p : ActivityProcess) :
    List BusEvent → Option (ActivityProcess × List OutMsg)
  | [] => some (p, [])
  | e :: rest =>
    match step p e with
    | none => none
    | some (p₁, out₁) =>
      match runEvents p₁ rest with
      | none => none
      | some (q, outs) => some (q, out₁ ++ outs)

/-- Number of values sent on the `done` channel by `start`: its
blocking select has the single case `<-p.stop`, which fires exactly
once, after `stop` is closed, then `start` sends one value on `done`
and returns. -/
def doneSignals (p : ActivityProcess) : Nat :=
  if p.stopClosed then 1 else 0

/-- The status code a `validator_status` event applies to this
process, if any: the message type must match, the public key must
match, and the code must be one of the five handled statuses (the Go
status switch has no default arm, so other codes change nothing). -/
def appliedStatus (pk : String) (e : BusEvent) : Option String :=
  match e with
  | BusEvent.connected => none
  | BusEvent.message m =>
    if m.message = "validator_status" ∧ m.pubkey = pk ∧
        (m.statusCode = "inactive" ∨ m.statusCode = "active" ∨
         m.statusCode = "exited" ∨ m.statusCode = "withdrawable" ∨
         m.statusCode = "withdrawn") then
      some m.statusCode
    else none

/-- Whether the `validatorActive` flag is set after a sequence of
events, starting from flag value `b`: the flag equals `true` exactly
when the most recently applied status was `"active"`. -/
def activeAfter (b : Bool) (pk : String) : List BusEvent → Bool
  | [] => b
  | e :: rest =>
    activeAfter
      (match appliedStatus pk e with
       | none => b
       | some c => c == "active") pk rest

/-- Whether an event is an `"epoch"` server message. -/
def isEpoch (e : BusEvent) : Bool :=
  match e with
  | BusEvent.connected => false
  | BusEvent.message m => m.message == "epoch"

/-- A `validator_status` server message for public key `pk` carrying
status code `code`. -/
def statusMsg (pk code : String) : ServerMessage :=
  { message := "validator_status", pubkey := pk, statusCode := code,
    action := "", errText := "" }

/-- An `epoch` server message. -/
def epochMsg : ServerMessage :=
  { message := "epoch", pubkey := "", statusCode := "", action := "",
    errText := "" }

end ActivityProc

namespace Watchtower

/-- Minipool status enum (`types.MinipoolStatus`); the task only
distinguishes `Dissolved`. -/
inductive MinipoolStatus
  | Initialised
  | Prelaunch
  | Staking
  | Withdrawable
  | Dissolved
  deriving DecidableEq, Repr

/-- Per-minipool snapshot record (`state.MinipoolDetails` entries).
Addresses and public keys are identifiers only, modelled as strings.
`StatusTime` is a unix timestamp in whole seconds (the Go code reads
it with `.Int64()`); `PreMigrationBalance` and `Balance` are wei
amounts (`big.Int`, non-negative); withdrawal credentials are a byte
sequence whose first byte is the credential type. -/
structure MinipoolDetails where
  MinipoolAddress : String
  Pubkey : String
  Status : MinipoolStatus
  IsVacant : Bool
  StatusTime : Int
  WithdrawalCredentials : List Nat
  PreMigrationBalance : Nat
  Balance : Nat
  deriving DecidableEq, Repr

/-- Per-validator snapshot record (`state.ValidatorDetails` values).
`Status` is the `beacon.ValidatorState` string; `Balance` is the
consensus-layer balance in gwei (uint64). -/
structure ValidatorDetails where
  Exists : Bool
  Status : String
  WithdrawalCredentials : List Nat
  Balance : Nat
  deriving DecidableEq, Repr

/-- Constant `beacon.ValidatorState_ActiveOngoing`. -/
def validatorStateActiveOngoing : String := "active_ongoing"

/-- Beacon chain configuration used for slot-to-time conversion. -/
structure BeaconConfig where
  GenesisTime : Nat
  SecondsPerSlot : Nat
  deriving DecidableEq, Repr

/-- The network details consumed by this task: the promotion scrub
period, in whole seconds (`state.NetworkDetails.PromotionScrubPeriod`
is a `time.Duration` holding a whole number of seconds read from the
protocol contracts). -/
structure NetworkDetails where
  PromotionScrubPeriodSeconds : Nat
  deriving DecidableEq, Repr

/-- The network-state snapshot (`state.NetworkState`) as consumed by
`checkSoloMigrations`. The validator map is keyed by public key. -/
structure NetworkState where
  BeaconSlotNumber : Nat
  ElBlockNumber : Nat
  BeaconConfig : Watchtower.BeaconConfig
  NetworkDetails : Watchtower.NetworkDetails
  MinipoolDetails : List Watchtower.MinipoolDetails
  ValidatorDetails : List (String × Watchtower.ValidatorDetails)
  deriving DecidableEq, Repr

/-- The zero value a Go map access yields for an absent key:
`Exists` false, empty status string, zero credentials and balance. -/
def zeroValidator : ValidatorDetails :=
  { Exists := false, Status := "", WithdrawalCredentials := [], Balance := 0 }

/-- Access `state.ValidatorDetails[mpd.Pubkey]`: map indexing with the Go
zero-value default for a missing key. -/
def lookupValidator (m : List (String × ValidatorDetails)) (k : String) :
    ValidatorDetails :=
  match m.find? (fun q => q.1 == k) with
  | some q => q.2
  | none => zeroValidator

/-- Credential type byte 0x00 (`blsPrefix` in the source). -/
def credTypeBLS : Nat := 0x00

/-- Credential type byte 0x01 (`elPrefix` in the source). -/
def credTypeEL : Nat := 0x01

/-- Constant `buffer = uint64(migrationBalanceBuffer * eth.WeiPerGwei)` with
`migrationBalanceBuffer = 0.001` and `WeiPerGwei = 1e9`: the float64
product is exactly 1e6 after rounding, so the buffer is 1_000_000
gwei. -/
def migrationBalanceBufferGwei : Nat := 1000000

/-- Constant `threshold := uint64(32000000000)` gwei. -/
def balanceThresholdGwei : Nat := 32000000000

/-- Value of a Go `int64` conversion applied to a non-negative
integer (used for `int64(state.BeaconConfig.GenesisTime)`): reduce
modulo 2^64 and reinterpret the top bit as sign. -/
def toInt64 (n : Nat) : Int :=
  if n % 2^64 < 2^63 then ((n % 2^64 : Nat) : Int)
  else ((n % 2^64 : Nat) : Int) - 2^64

/-- Value `scrubThreshold := time.Duration(PromotionScrubPeriod.Seconds() *
soloMigrationCheckThreshold) * time.Second`, in whole seconds.  The
float64 conversion truncates toward zero, so for a period of `p`
whole seconds the threshold is `⌊0.85 * p⌋ = 85 * p / 100` seconds
(the fractional parts of `85*p/100` are multiples of 1/20, far larger
than any float64 rounding error of the product, so the float
truncation agrees with the exact truncated fraction). -/
def scrubThresholdSeconds (s : NetworkState) : Nat :=
  85 * s.NetworkDetails.PromotionScrubPeriodSeconds / 100

/-- Value `blockTime := genesisTime.Add(secondsForSlot)` where
`secondsForSlot = Duration(BeaconSlotNumber * SecondsPerSlot) * Second`:
the snapshot's time context, in unix seconds, derived only from the
snapshot's beacon genesis time, seconds-per-slot and slot number.
The slot product is a uint64 multiplication, hence the `% 2^64`
(the further int64 reinterpretation and nanosecond scaling inside
`time.Duration` only diverge for slot times beyond 2^63 seconds and
are elided). -/
def snapshotBlockTime (s : NetworkState) : Int :=
  toInt64 s.BeaconConfig.GenesisTime +
    ((s.BeaconSlotNumber * s.BeaconConfig.SecondsPerSlot) % 2^64 : Nat)

/-- Value `creationBalanceGwei := big.NewInt(0).Div(mpd.PreMigrationBalance,
oneGwei).Uint64()`: wei-to-gwei floor division, then uint64
truncation. -/
def creationBalanceGwei (mpd : MinipoolDetails) : Nat :=
  (mpd.PreMigrationBalance / 1000000000) % 2^64

/-- Value `minipoolBalanceGwei := big.NewInt(0).Div(mpd.Balance,
oneGwei).Uint64()`. -/
def minipoolBalanceGwei (mpd : MinipoolDetails) : Nat :=
  (mpd.Balance / 1000000000) % 2^64

/-- Value `currentBalance := validator.Balance; currentBalance +=
minipoolBalanceGwei`: uint64 addition. -/
def currentBalanceGwei (v : ValidatorDetails) (mpd : MinipoolDetails) : Nat :=
  (v.Balance + minipoolBalanceGwei mpd) % 2^64

/-- The right-hand side of the second balance comparison,
`creationBalanceGwei - buffer`: uint64 subtraction, which wraps
modulo 2^64 when `creationBalanceGwei < buffer`. -/
def wrappedCreationMinusBuffer (mpd : MinipoolDetails) : Nat :=
  (creationBalanceGwei mpd + 2^64 - migrationBalanceBufferGwei) % 2^64

/-- Which branch of `checkSoloMigrations` produced a scrub decision
(the Go code formats a corresponding reason string and passes it to
`scrubVacantMinipool`). -/
inductive ScrubReason
  | notSeen
  | wrongState (observed : String)
  | timedOut
  | credsMismatch
  | badCredType (b : Nat)
  | belowThreshold
  | balanceDecreased
  deriving DecidableEq, Repr

/-- One iteration of the `checkSoloMigrations` minipool loop: the
scrub decisions issued for one minipool record, in order.  Note the
unseen-validator branch issues its scrub and falls through (the
source has no `continue` there), so a vacant minipool with no
validator record receives a second, wrong-state scrub decision. -/
def checkMinipool (blockTime : Int) (scrubThresholdSec : Nat)
    (validators : List (String × ValidatorDetails))
    (mpd : MinipoolDetails) : List (String × ScrubReason) :=
  if mpd.Status = MinipoolStatus.Dissolved then []
  else if !mpd.IsVacant then []
  else
    let validator := lookupValidator validators mpd.Pubkey
    let unseenScrub :=
      if validator.Exists then []
      else [(mpd.MinipoolAddress, ScrubReason.notSeen)]
    if validator.Status ≠ validatorStateActiveOngoing then
      unseenScrub ++ [(mpd.MinipoolAddress, ScrubReason.wrongState validator.Status)]
    else
      let withdrawalCreds := validator.WithdrawalCredentials
      let b0 := withdrawalCreds.headD 0
      unseenScrub ++
        (if b0 = credTypeBLS then
          (if blockTime > mpd.StatusTime + (scrubThresholdSec : Int) then
            [(mpd.MinipoolAddress, ScrubReason.timedOut)]
          else [])
        else if b0 = credTypeEL then
          (if withdrawalCreds ≠ mpd.WithdrawalCredentials then
            [(mpd.MinipoolAddress, ScrubReason.credsMismatch)]
          else if currentBalanceGwei validator mpd < balanceThresholdGwei then
            [(mpd.MinipoolAddress, ScrubReason.belowThreshold)]
          else if currentBalanceGwei validator mpd < wrappedCreationMinusBuffer mpd then
            [(mpd.MinipoolAddress, ScrubReason.balanceDecreased)]
          else [])
        else [(mpd.MinipoolAddress, ScrubReason.badCredType b0)])

/-- The scrub decisions for one minipool under snapshot `s`: the loop
body applied at the snapshot's time context. -/
def classify (s : NetworkState) (mpd : MinipoolDetails) :
    List (String × ScrubReason) :=
  checkMinipool (snapshotBlockTime s) (scrubThresholdSeconds s)
    s.ValidatorDetails mpd

/-- Function `checkSoloMigrations`: classify every minipool of the snapshot,
in snapshot iteration order. -/
def checkSoloMigrations (s : NetworkState) : List (String × ScrubReason) :=
  s.MinipoolDetails.flatMap (classify s)

/-- The scan as executed in an ambient environment whose wall clock
reads `now`.  The Go source never reads the wall clock inside
`checkSoloMigrations`: every time value is derived from the snapshot
(`genesisTime`, `SecondsPerSlot`, `BeaconSlotNumber`), so the ambient
clock parameter is unused. -/
def checkSoloMigrationsWithClock (now : Int) (s : NetworkState) :
    List (String × ScrubReason) :=
  checkSoloMigrations s

/-- Spec-side rule for credential type byte 0x00, following the
claim's words: scrub exactly when the snapshot block time exceeds the
minipool's status-change time plus 0.85 times the promotion scrub
period (exact rational arithmetic). -/
def specBlsTimedOut (s : NetworkState) (mpd : MinipoolDetails) : Prop :=
  ((snapshotBlockTime s : ℚ)) >
    (mpd.StatusTime : ℚ) +
      (85 / 100 : ℚ) * (s.NetworkDetails.PromotionScrubPeriodSeconds : ℚ)

/-- Spec-side rule for credential type byte 0x01, following the
claim's words with exact (unbounded) integer arithmetic: scrub iff
the credentials differ, or the combined gwei balance is below
32_000_000_000, or the combined balance is below the pre-migration
creation balance minus a 1_000_000-gwei buffer. -/
def specElScrub (mpd : MinipoolDetails) (v : ValidatorDetails) : Prop :=
  v.WithdrawalCredentials ≠ mpd.WithdrawalCredentials ∨
    v.Balance + mpd.Balance / 1000000000 < 32000000000 ∨
    ((v.Balance + mpd.Balance / 1000000000 : Nat) : Int) <
      ((mpd.PreMigrationBalance / 1000000000 : Nat) : Int) - 1000000

/-- Oracles for the external collaborators `scrubVacantMinipool`
calls into: `minipool.NewMinipool`, `GetNodeAccountTransactor`,
`EstimateVoteScrubGas`, `api.PrintAndCheckGasInfo` (the configured
max-fee check / confirmation gate, returning whether to proceed),
`VoteScrub` (returning the tx hash) and
`api.PrintAndWaitForTransaction`.  All are keyed by minipool address
or tx hash where the Go call is. -/
structure TxEnv where
  newMinipool : String → Except String Unit
  getNodeAccountTransactor : Except String Unit
  estimateVoteScrubGas : String → Except String Nat
  printAndCheckGasInfo : String → Bool
  voteScrub : String → Except String String
  printAndWaitForTransaction : String → Except String Unit

instance {ε α : Type} [DecidableEq ε] [DecidableEq α] :
    DecidableEq (Except ε α) := fun a b =>
  match a, b with
  | Except.error e, Except.error f =>
    if h : e = f then Decidable.isTrue (h ▸ rfl)
    else Decidable.isFalse (fun hh => h (Except.error.inj hh))
  | Except.error _, Except.ok _ =>
    Decidable.isFalse (fun hh => Except.noConfusion hh)
  | Except.ok _, Except.error _ =>
    Decidable.isFalse (fun hh => Except.noConfusion hh)
  | Except.ok x, Except.ok y =>
    if h : x = y then Decidable.isTrue (h ▸ rfl)
    else Decidable.isFalse (fun hh => h (Except.ok.inj hh))

/-- Observable outcome of one `scrubVacantMinipool` call: the tx
hashes submitted on chain and the returned error value. -/
structure ScrubOutcome where
  submitted : List String
  result : Except String Unit
  deriving DecidableEq, Repr

/-- Function `scrubVacantMinipool`: log the scrub banner (console logging is
not tracked here), build the minipool binding, get the transactor,
estimate gas, run the max-fee check / confirmation gate (a veto
returns nil with no transaction), set the gas settings, submit
`VoteScrub`, and wait for inclusion. -/
def scrubVacantMinipool (env : TxEnv) (address : String)
    (reason : ScrubReason) : ScrubOutcome :=
  match env.newMinipool address with
  | Except.error e =>
    { submitted := [],
      result := Except.error
        ("error scrubbing migration of minipool " ++ address ++ ": " ++ e) }
  | Except.ok _ =>
    match env.getNodeAccountTransactor with
    | Except.error e => { submitted := [], result := Except.error e }
    | Except.ok _ =>
      match env.estimateVoteScrubGas address with
      | Except.error e =>
        { submitted := [],
          result := Except.error
            ("could not estimate the gas required to scrub the minipool: " ++ e) }
      | Except.ok _ =>
        if !env.printAndCheckGasInfo address then
          { submitted := [], result := Except.ok () }
        else
          match env.voteScrub address with
          | Except.error e => { submitted := [], result := Except.error e }
          | Except.ok hash =>
            match env.printAndWaitForTransaction hash with
            | Except.error e =>
              { submitted := [hash], result := Except.error e }
            | Except.ok _ =>
              { submitted := [hash], result := Except.ok () }

/-- Observable outcome of one full scan: the scrub attempts begun (in
order), the lines written to the error logger `t.errLog`, the tx
hashes submitted, and the scan's returned error value. -/
structure ScanOutcome where
  attempts : List (String × ScrubReason)
  errLogs : List String
  submitted : List String
  result : Except String Unit
  deriving DecidableEq, Repr

/-- The scan with its transaction side effects: for every scrub
decision of `checkSoloMigrations`, in order, call
`scrubVacantMinipool` and accumulate its effects.  The Go call sites
discard `scrubVacantMinipool`'s return value (plain statements, no
assignment), so a submission error is neither logged to `t.errLog`
nor propagated, and the loop continues; the scan itself always
returns nil (`t.errLog` is only written by `handleError`, which runs
only when `checkSoloMigrations` returns an error — it never does). -/
def scrubAccum (env : TxEnv) (acc : ScanOutcome)
    (d : String × ScrubReason) : ScanOutcome :=
  let o := scrubVacantMinipool env d.1 d.2
  { acc with
    attempts := acc.attempts ++ [d],
    submitted := acc.submitted ++ o.submitted }

def runScan (env : TxEnv) (s : NetworkState) : ScanOutcome :=
  (checkSoloMigrations s).foldl (scrubAccum env)
    { attempts := [], errLogs := [], submitted := [], result := Except.ok () }

/-- Program counter of one `run` invocation: at the guard's critical
section, returned because the guard saw the flag set, passed the
guard (released the lock, about to spawn), or spawned its goroutine
and returned. -/
inductive InvPc
  | atGuard
  | returnedBusy
  | passedGuard
  | spawned
  deriving DecidableEq, Repr

/-- Program counter of one spawned scan goroutine: not spawned yet,
about to run its lock-set-unlock section, running the scan, or
finished (flag cleared). -/
inductive GoPc
  | notSpawned
  | atSetFlag
  | scanning
  | finished
  deriving DecidableEq, Repr

/-- Thread identifiers for two `run` invocations A and B, each with
its spawned goroutine. -/
inductive Tid
  | A
  | B
  deriving DecidableEq, Repr

/-- Shared state for the single-flight guard of `run`: the
`isRunning` flag (protected by `t.lock`) and the progress of both
invocations and their goroutines.  Sync waits and the Atlas check are
assumed passed (the claim assumes the migration feature enabled).
Each atomic action below is one lock-protected critical section or
one scheduling step, which is sound because `isRunning` is only ever
touched under the lock. -/
structure DutyState where
  isRunning : Bool
  invA : InvPc
  invB : InvPc
  goA : GoPc
  goB : GoPc
  deriving DecidableEq, Repr

/-- Atomic actions of the `run` interleaving model:
`guardCheck t` is the critical section that reads `isRunning` and
either returns (busy) or proceeds; `spawnScan t` is the `go func()`
statement (then `run` returns); `setFlag t` is the goroutine's
critical section that sets `isRunning = true`; `finishScan t` is the
end of the scan, clearing `isRunning` under the lock. -/
inductive DutyAction
  | guardCheck (t : Tid)
  | spawnScan (t : Tid)
  | setFlag (t : Tid)
  | finishScan (t : Tid)
  deriving DecidableEq, Repr

/-- Read one invocation's program counter. -/
def invOf (t : Tid) (st : DutyState) : InvPc :=
  match t with
  | Tid.A => st.invA
  | Tid.B => st.invB

/-- Read one goroutine's program counter. -/
def goOf (t : Tid) (st : DutyState) : GoPc :=
  match t with
  | Tid.A => st.goA
  | Tid.B => st.goB

/-- Write one invocation's program counter. -/
def setInv (t : Tid) (v : InvPc) (st : DutyState) : DutyState :=
  match t with
  | Tid.A => { st with invA := v }
  | Tid.B => { st with invB := v }

/-- Write one goroutine's program counter. -/
def setGo (t : Tid) (v : GoPc) (st : DutyState) : DutyState :=
  match t with
  | Tid.A => { st with goA := v }
  | Tid.B => { st with goB := v }

/-- One atomic step of the interleaving model; `none` when the action
is not enabled in the given state. -/
def dutyStep (st : DutyState) (a : DutyAction) : Option DutyState :=
  match a with
  | DutyAction.guardCheck t =>
    if invOf t st = InvPc.atGuard then
      some (if st.isRunning then setInv t InvPc.returnedBusy st
            else setInv t InvPc.passedGuard st)
    else none
  | DutyAction.spawnScan t =>
    if invOf t st = InvPc.passedGuard then
      some (setGo t GoPc.atSetFlag (setInv t InvPc.spawned st))
    else none
  | DutyAction.setFlag t =>
    if goOf t st = GoPc.atSetFlag then
      some (setGo t GoPc.scanning { st with isRunning := true })
    else none
  | DutyAction.finishScan t =>
    if goOf t st = GoPc.scanning then
      some (setGo t GoPc.finished { st with isRunning := false })
    else none

/-- Execute a sequence of atomic actions from a state. -/
def execDuty (st : DutyState) : List DutyAction → Option DutyState
  | [] => some st
  | a :: rest =>
    match dutyStep st a with
    | none => none
    | some st₁ => execDuty st₁ rest

/-- Two rapid `run` invocations: both at their guard check, flag
clear, no goroutines yet. -/
def dutyInit : DutyState :=
  { isRunning := false, invA := InvPc.atGuard, invB := InvPc.atGuard,
    goA := GoPc.notSpawned, goB := GoPc.notSpawned }

/-- The interleaving in which both invocations pass the guard before
either spawned goroutine has set the `isRunning` flag. -/
def doubleScanTrace : List DutyAction :=
  [DutyAction.guardCheck Tid.A, DutyAction.spawnScan Tid.A,
   DutyAction.guardCheck Tid.B, DutyAction.spawnScan Tid.B,
   DutyAction.setFlag Tid.A, DutyAction.setFlag Tid.B]

/-- An execution-layer credential byte sequence (type byte 0x01). -/
def wcEL : List Nat := 1 :: List.replicate 31 0

/-- A BLS credential byte sequence (type byte 0x00). -/
def wcBLS : List Nat := 0 :: List.replicate 31 170

/-- Concrete vacant minipool whose pre-migration balance is 0 wei:
its creation balance in gwei (0) is below the 1_000_000-gwei buffer,
so the uint64 subtraction in the balance check wraps. -/
def mpdWrap : MinipoolDetails :=
  { MinipoolAddress := "mp1", Pubkey := "pk1",
    Status := MinipoolStatus.Staking, IsVacant := true, StatusTime := 0,
    WithdrawalCredentials := wcEL, PreMigrationBalance := 0, Balance := 0 }

/-- Concrete healthy validator for `mpdWrap`: active_ongoing,
matching credentials, balance exactly 32 ETH in gwei. -/
def vWrap : ValidatorDetails :=
  { Exists := true, Status := "active_ongoing",
    WithdrawalCredentials := wcEL, Balance := 32000000000 }

/-- Concrete snapshot containing `mpdWrap` and `vWrap`. -/
def sWrap : NetworkState :=
  { BeaconSlotNumber := 100, ElBlockNumber := 50,
    BeaconConfig := { GenesisTime := 1606824023, SecondsPerSlot := 12 },
    NetworkDetails := { PromotionScrubPeriodSeconds := 10000 },
    MinipoolDetails := [mpdWrap], ValidatorDetails := [("pk1", vWrap)] }

/-- Concrete vacant minipool with BLS-type validator credentials,
status change at time 1000. -/
def mpdBls : MinipoolDetails :=
  { MinipoolAddress := "mpB", Pubkey := "pkB",
    Status := MinipoolStatus.Staking, IsVacant := true, StatusTime := 1000,
    WithdrawalCredentials := wcEL, PreMigrationBalance := 32000000000000000000,
    Balance := 0 }

/-- Concrete validator for `mpdBls` still holding BLS credentials. -/
def vBls : ValidatorDetails :=
  { Exists := true, Status := "active_ongoing",
    WithdrawalCredentials := wcBLS, Balance := 32000000000 }

/-- Concrete snapshot containing `mpdBls` and `vBls`: scrub period
10000 s (threshold 8500 s), snapshot block time 10000, so the
deadline 1000 + 8500 has passed. -/
def sBls : NetworkState :=
  { BeaconSlotNumber := 10000, ElBlockNumber := 7,
    BeaconConfig := { GenesisTime := 0, SecondsPerSlot := 1 },
    NetworkDetails := { PromotionScrubPeriodSeconds := 10000 },
    MinipoolDetails := [mpdBls], ValidatorDetails := [("pkB", vBls)] }

/-- Concrete vacant minipool whose public key has no validator record
in the snapshot. -/
def mpdUnseen : MinipoolDetails :=
  { MinipoolAddress := "mp6", Pubkey := "pk6",
    Status := MinipoolStatus.Staking, IsVacant := true, StatusTime := 0,
    WithdrawalCredentials := [], PreMigrationBalance := 0, Balance := 0 }

/-- Concrete snapshot containing `mpdUnseen` and an empty validator
map. -/
def sUnseen : NetworkState :=
  { BeaconSlotNumber := 0, ElBlockNumber := 0,
    BeaconConfig := { GenesisTime := 0, SecondsPerSlot := 12 },
    NetworkDetails := { PromotionScrubPeriodSeconds := 10000 },
    MinipoolDetails := [mpdUnseen], ValidatorDetails := [] }

/-- Concrete snapshot with two unseen vacant minipools, for the
error-handling claims: both produce scrub decisions. -/
def sTwo : NetworkState :=
  { BeaconSlotNumber := 0, ElBlockNumber := 0,
    BeaconConfig := { GenesisTime := 0, SecondsPerSlot := 12 },
    NetworkDetails := { PromotionScrubPeriodSeconds := 10000 },
    MinipoolDetails :=
      [mpdUnseen,
       { MinipoolAddress := "mp7", Pubkey := "pk7",
         Status := MinipoolStatus.Staking, IsVacant := true, StatusTime := 0,
         WithdrawalCredentials := [], PreMigrationBalance := 0, Balance := 0 }],
    ValidatorDetails := [] }

/-- Concrete transaction environment in which submitting the scrub
vote for minipool "mp6" fails, everything else succeeds and the gas
gate approves. -/
def envFail : TxEnv :=
  { newMinipool := fun _ => Except.ok (),
    getNodeAccountTransactor := Except.ok (),
    estimateVoteScrubGas := fun _ => Except.ok 21000,
    printAndCheckGasInfo := fun _ => true,
    voteScrub := fun a =>
      if a = "mp6" then Except.error "boom" else Except.ok ("tx-" ++ a),
    printAndWaitForTransaction := fun _ => Except.ok () }

/-- Concrete transaction environment whose gas gate vetoes every
submission. -/
def envVeto : TxEnv :=
  { newMinipool := fun _ => Except.ok (),
    getNodeAccountTransactor := Except.ok (),
    estimateVoteScrubGas := fun _ => Except.ok 21000,
    printAndCheckGasInfo := fun _ => false,
    voteScrub := fun a => Except.ok ("tx-" ++ a),
    printAndWaitForTransaction := fun _ => Except.ok () }

/-- Concrete transaction environment whose gas estimation fails. -/
def envEstFail : TxEnv :=
  { newMinipool := fun _ => Except.ok (),
    getNodeAccountTransactor := Except.ok (),
    estimateVoteScrubGas := fun _ => Except.error "no gas",
    printAndCheckGasInfo := fun _ => true,
    voteScrub := fun a => Except.ok ("tx-" ++ a),
    printAndWaitForTransaction := fun _ => Except.ok () }

end Watchtower

namespace ActivityProc

theorem step_pubkey (p : ActivityProcess) (e : BusEvent)
    (p₁ : ActivityProcess) (out : List OutMsg)
    (h : step p e = some (p₁, out)) : p₁.pubkeyHex = p.pubkeyHex := by
  cases e with
  | connected =>
    simp only [step, onBeaconClientConnected] at h
    cases h; rfl
  | message m =>
    simp only [step, onBeaconClientMessage, handleValidatorStatus] at h
    split_ifs at h <;> cases h <;> rfl

theorem step_active (p : ActivityProcess) (e : BusEvent)
    (p₁ : ActivityProcess) (out : List OutMsg)
    (h : step p e = some (p₁, out)) :
    p₁.validatorActive =
      (match appliedStatus p.pubkeyHex e with
       | none => p.validatorActive
       | some c => c == "active") := by
  cases e with
  | connected =>
    simp only [step, onBeaconClientConnected] at h
    cases h; rfl
  | message m =>
    simp only [step, onBeaconClientMessage, handleValidatorStatus] at h
    simp only [appliedStatus]
    split_ifs at h with h1 h2 h3 h4 h5 h6 h7 h8
    all_goals cases h
    all_goals try (rcases h5 with h5 | h5 | h5)
    all_goals first
      | simp_all [Ne.symm h2]
      | simp_all

theorem step_stop_mono (p : ActivityProcess) (e : BusEvent)
    (p₁ : ActivityProcess) (out : List OutMsg)
    (h : step p e = some (p₁, out)) (hs : p.stopClosed = true) :
    p₁.stopClosed = true := by
  cases e with
  | connected =>
    simp only [step, onBeaconClientConnected] at h
    cases h; exact hs
  | message m =>
    simp only [step, onBeaconClientMessage, handleValidatorStatus] at h
    split_ifs at h <;> cases h <;> simp_all

theorem step_activity_mem (p : ActivityProcess) (e : BusEvent)
    (p₁ : ActivityProcess) (out : List OutMsg)
    (h : step p e = some (p₁, out)) :
    (OutMsg.clientMessage "activity" p.pubkeyHex ∈ out) ↔
      (isEpoch e = true ∧ p.validatorActive = true) := by
  cases e with
  | connected =>
    simp only [step, onBeaconClientConnected] at h
    cases h
    simp [isEpoch]
  | message m =>
    simp only [step, onBeaconClientMessage, handleValidatorStatus] at h
    split_ifs at h
    all_goals cases h
    all_goals simp_all [isEpoch]

theorem runEvents_invariant (evs : List BusEvent) (p : ActivityProcess)
    (q : ActivityProcess) (outs : List OutMsg)
    (h : runEvents p evs = some (q, outs)) :
    q.pubkeyHex = p.pubkeyHex ∧
      q.validatorActive = activeAfter p.validatorActive p.pubkeyHex evs := by
  induction evs generalizing p outs with
  | nil =>
    simp only [runEvents] at h
    cases h
    exact ⟨rfl, rfl⟩
  | cons e rest ih =>
    simp only [runEvents] at h
    rcases h1 : step p e with _ | ⟨p₁, out₁⟩ <;> rw [h1] at h <;>
      dsimp only at h
    · cases h
    · rcases h2 : runEvents p₁ rest with _ | ⟨q₂, outs₂⟩ <;> rw [h2] at h <;>
        dsimp only at h
      · cases h
      · cases h
        have hpk := step_pubkey p e p₁ out₁ h1
        have hact := step_active p e p₁ out₁ h1
        have := ih p₁ outs₂ h2
        refine ⟨this.1.trans hpk, ?_⟩
        rw [this.2, hpk, activeAfter, ← hact]

theorem runEvents_quiet (evs : List BusEvent) (p : ActivityProcess)
    (q : ActivityProcess) (outs : List OutMsg)
    (h : runEvents p evs = some (q, outs))
    (hact : p.validatorActive = false)
    (hno : ∀ e ∈ evs, appliedStatus p.pubkeyHex e ≠ some "active") :
    OutMsg.clientMessage "activity" p.pubkeyHex ∉ outs ∧
      q.validatorActive = false ∧ q.pubkeyHex = p.pubkeyHex ∧
      (p.stopClosed = true → q.stopClosed = true) := by
  induction evs generalizing p outs with
  | nil =>
    simp only [runEvents] at h
    cases h
    exact ⟨by simp, hact, rfl, fun hs => hs⟩
  | cons e rest ih =>
    simp only [runEvents] at h
    rcases h1 : step p e with _ | ⟨p₁, out₁⟩ <;> rw [h1] at h <;>
      dsimp only at h
    · cases h
    · rcases h2 : runEvents p₁ rest with _ | ⟨q₂, outs₂⟩ <;> rw [h2] at h <;>
        dsimp only at h
      · cases h
      · cases h
        have hpk := step_pubkey p e p₁ out₁ h1
        have hact₁ : p₁.validatorActive = false := by
          rw [step_active p e p₁ out₁ h1]
          rcases h3 : appliedStatus p.pubkeyHex e with _ | c
          · exact hact
          · have := hno e (by simp)
            rw [h3] at this
            have hc : ¬(c = "active") := fun hc => this (by rw [hc])
            simpa using hc
        have hrest := ih p₁ outs₂ h2 hact₁
          (by intro e' he'; rw [hpk]; exact hno e' (by simp [he']))
        have hmem₁ : OutMsg.clientMessage "activity" p.pubkeyHex ∉ out₁ := by
          rw [step_activity_mem p e p₁ out₁ h1, hact]
          simp
        refine ⟨?_, hrest.2.1, hrest.2.2.1.trans hpk, ?_⟩
        · intro hmem
          rcases List.mem_append.mp hmem with hm | hm
          · exact hmem₁ hm
          · exact hrest.1 (by rw [hpk]; exact hm)
        · intro hs
          exact hrest.2.2.2 (step_stop_mono p e p₁ out₁ h1 hs)

theorem step_exit (p : ActivityProcess) (m : ServerMessage)
    (p' : ActivityProcess) (out : List OutMsg)
    (hm : m.message = "validator_status") (hmp : m.pubkey = p.pubkeyHex)
    (hcode : m.statusCode = "exited" ∨ m.statusCode = "withdrawable" ∨
      m.statusCode = "withdrawn")
    (hstep : step p (BusEvent.message m) = some (p', out)) :
    p'.validatorActive = false ∧ p'.stopClosed = true ∧ out = [] ∧
      p'.pubkeyHex = p.pubkeyHex := by
  simp only [step, onBeaconClientMessage, handleValidatorStatus] at hstep
  rcases hcode with hc | hc | hc <;>
    simp_all <;>
    rcases hstep with ⟨hsc, hp, hout⟩ <;>
    rw [← hp] <;>
    exact ⟨rfl, rfl, rfl⟩


end ActivityProc

namespace Watchtower

theorem scrubThresholdEquiv (bt st : Int) (p : Nat) :
    (st + ((85 * p / 100 : Nat) : Int) < bt) ↔
      ((st : ℚ) + (85 / 100 : ℚ) * (p : ℚ) < (bt : ℚ)) := by
  have key : ((st : ℚ) + (85 / 100 : ℚ) * (p : ℚ) < (bt : ℚ)) ↔
      (100 * st + 85 * (p : Int) < 100 * bt) := by
    rw [show ((st : ℚ) + (85 / 100 : ℚ) * (p : ℚ) < (bt : ℚ)) ↔
        ((100 : ℚ) * ((st : ℚ) + (85 / 100 : ℚ) * (p : ℚ)) < 100 * (bt : ℚ)) from
      (mul_lt_mul_left (by norm_num)).symm]
    constructor
    · intro h
      have h2 : ((100 * st + 85 * (p : Int) : Int) : ℚ) < ((100 * bt : Int) : ℚ) := by
        push_cast
        linarith
      exact_mod_cast h2
    · intro h
      have h2 : ((100 * st + 85 * (p : Int) : Int) : ℚ) < ((100 * bt : Int) : ℚ) := by
        exact_mod_cast h
      push_cast at h2
      linarith
  rw [key]
  omega

theorem checkMinipool_active (bt : Int) (th : Nat)
    (vals : List (String × ValidatorDetails)) (mpd : MinipoolDetails)
    (h1 : mpd.Status ≠ MinipoolStatus.Dissolved)
    (h2 : mpd.IsVacant = true)
    (h3 : (lookupValidator vals mpd.Pubkey).Exists = true)
    (h4 : (lookupValidator vals mpd.Pubkey).Status = validatorStateActiveOngoing) :
    checkMinipool bt th vals mpd =
      (if (lookupValidator vals mpd.Pubkey).WithdrawalCredentials.headD 0 = credTypeBLS then
        (if bt > mpd.StatusTime + (th : Int) then
          [(mpd.MinipoolAddress, ScrubReason.timedOut)]
        else [])
      else if (lookupValidator vals mpd.Pubkey).WithdrawalCredentials.headD 0 = credTypeEL then
        (if (lookupValidator vals mpd.Pubkey).WithdrawalCredentials ≠ mpd.WithdrawalCredentials then
          [(mpd.MinipoolAddress, ScrubReason.credsMismatch)]
        else if currentBalanceGwei (lookupValidator vals mpd.Pubkey) mpd < balanceThresholdGwei then
          [(mpd.MinipoolAddress, ScrubReason.belowThreshold)]
        else if currentBalanceGwei (lookupValidator vals mpd.Pubkey) mpd < wrappedCreationMinusBuffer mpd then
          [(mpd.MinipoolAddress, ScrubReason.balanceDecreased)]
        else [])
      else [(mpd.MinipoolAddress,
        ScrubReason.badCredType ((lookupValidator vals mpd.Pubkey).WithdrawalCredentials.headD 0))]) := by
  unfold checkMinipool
  rw [if_neg h1, h2]
  simp only [Bool.not_true, Bool.false_eq_true, if_false, h3, if_true, h4, ne_eq,
    not_true_eq_false, List.nil_append]

end Watchtower

namespace Watchtower

theorem scrubAccum_foldl (env : TxEnv) (l : List (String × ScrubReason)) :
    ∀ acc : ScanOutcome,
      ((l.foldl (scrubAccum env) acc).attempts = acc.attempts ++ l) ∧
      ((l.foldl (scrubAccum env) acc).errLogs = acc.errLogs) ∧
      ((l.foldl (scrubAccum env) acc).result = acc.result) := by
  induction l with
  | nil => intro acc; simp
  | cons d rest ih =>
    intro acc
    simp only [List.foldl_cons]
    obtain ⟨ha, he, hr⟩ := ih (scrubAccum env acc d)
    simp only [scrubAccum] at ha he hr
    refine ⟨?_, ?_, ?_⟩ <;> simp [scrubAccum, ha, he, hr]

end Watchtower


/-- C3: for every event sequence delivered to one activity process, a
heartbeat ("activity") message is sent in response to the next event
if and only if that event is an epoch message and the most recently
applied `validator_status` message matching this process's public key
carried status `active`; in the initial state (`activeAfter false pk
[] = false`) and after an `inactive` status, an epoch event sends no
heartbeat. -/
theorem C3_heartbeat_iff_active (pk : String) (evs : List ActivityProc.BusEvent)
    (e : ActivityProc.BusEvent) (p : ActivityProc.ActivityProcess)
    (outs : List ActivityProc.OutMsg) (p' : ActivityProc.ActivityProcess)
    (out : List ActivityProc.OutMsg)
    (hrun : ActivityProc.runEvents (ActivityProc.initProcess pk) evs = some (p, outs))
    (hstep : ActivityProc.step p e = some (p', out)) :
    (ActivityProc.OutMsg.clientMessage "activity" pk ∈ out) ↔
      (ActivityProc.isEpoch e = true ∧
       ActivityProc.activeAfter false pk evs = true) := by
  obtain ⟨hpk, hact⟩ := ActivityProc.runEvents_invariant evs _ p outs hrun
  have hpk' : p.pubkeyHex = pk := hpk
  have hact' : p.validatorActive = ActivityProc.activeAfter false pk evs := hact
  have hmem := ActivityProc.step_activity_mem p e p' out hstep
  rw [hpk', hact'] at hmem
  exact hmem

/-- Witness for C3 at a concrete input: after an `active` status for
key "ab", an epoch event emits exactly the heartbeat message. -/
theorem C3_heartbeat_iff_active_witness :
    (ActivityProc.OutMsg.clientMessage "activity" "ab" ∈
        [ActivityProc.OutMsg.clientMessage "activity" "ab"]) ↔
      (ActivityProc.isEpoch (ActivityProc.BusEvent.message ActivityProc.epochMsg) = true ∧
       ActivityProc.activeAfter false "ab"
         [ActivityProc.BusEvent.message (ActivityProc.statusMsg "ab" "active")] = true) :=
  C3_heartbeat_iff_active "ab"
    [ActivityProc.BusEvent.message (ActivityProc.statusMsg "ab" "active")]
    (ActivityProc.BusEvent.message ActivityProc.epochMsg)
    { pubkeyHex := "ab", validatorActive := true, stopClosed := false } []
    { pubkeyHex := "ab", validatorActive := true, stopClosed := false }
    [ActivityProc.OutMsg.clientMessage "activity" "ab"]
    (by decide) (by decide)

/-- C4 counterexample: the claim says that once an exit-family status
is applied no subsequent event of any kind ever causes a heartbeat.
On the code, the event loop can keep handling messages after `stop`
is closed, and the sequence exited-then-active-then-epoch sends a
heartbeat after the exit-family status was applied. -/
theorem C4_counterexample :
    ActivityProc.runEvents (ActivityProc.initProcess "ab")
      [ActivityProc.BusEvent.message (ActivityProc.statusMsg "ab" "exited"),
       ActivityProc.BusEvent.message (ActivityProc.statusMsg "ab" "active"),
       ActivityProc.BusEvent.message ActivityProc.epochMsg] =
      some ({ pubkeyHex := "ab", validatorActive := true, stopClosed := true },
        [ActivityProc.OutMsg.clientMessage "activity" "ab"]) := by
  decide

/-- C4 (amended): applying an exit-family status (`exited`,
`withdrawable` or `withdrawn`) matching the process's key clears the
active flag, closes the stop channel and emits nothing; as long as no
subsequent `active` status for this key is applied, no later event
causes a heartbeat, and at the end of any such panic-free run the
process has signalled its done channel exactly once. -/
theorem C4_exit_quiescence (pk : String)
    (p p' : ActivityProc.ActivityProcess) (out : List ActivityProc.OutMsg)
    (m : ActivityProc.ServerMessage) (evs : List ActivityProc.BusEvent)
    (q : ActivityProc.ActivityProcess) (outs : List ActivityProc.OutMsg)
    (hpk : p.pubkeyHex = pk)
    (hm : m.message = "validator_status") (hmp : m.pubkey = pk)
    (hcode : m.statusCode = "exited" ∨ m.statusCode = "withdrawable" ∨
      m.statusCode = "withdrawn")
    (hstep : ActivityProc.step p (ActivityProc.BusEvent.message m) = some (p', out))
    (hrun : ActivityProc.runEvents p' evs = some (q, outs))
    (hno : ∀ e ∈ evs, ActivityProc.appliedStatus pk e ≠ some "active") :
    p'.validatorActive = false ∧ p'.stopClosed = true ∧ out = [] ∧
      ActivityProc.OutMsg.clientMessage "activity" pk ∉ outs ∧
      ActivityProc.doneSignals q = 1 := by
  obtain ⟨ha, hs, ho, hq⟩ :=
    ActivityProc.step_exit p m p' out hm (by rw [hmp, hpk]) hcode hstep
  have hq' : p'.pubkeyHex = pk := hq.trans hpk
  have hquiet := ActivityProc.runEvents_quiet evs p' q outs hrun ha
    (by rw [hq']; exact hno)
  rw [hq'] at hquiet
  refine ⟨ha, hs, ho, hquiet.1, ?_⟩
  have hqs : q.stopClosed = true := hquiet.2.2.2 hs
  simp [ActivityProc.doneSignals, hqs]

/-- Witness for C4 (amended) at a concrete input: after an `exited`
status for key "ab", a subsequent epoch event emits nothing and the
done channel has been signalled exactly once. -/
theorem C4_exit_quiescence_witness :
    ({ pubkeyHex := "ab", validatorActive := false, stopClosed := true } :
        ActivityProc.ActivityProcess).validatorActive = false ∧
      ({ pubkeyHex := "ab", validatorActive := false, stopClosed := true } :
        ActivityProc.ActivityProcess).stopClosed = true ∧
      ([] : List ActivityProc.OutMsg) = [] ∧
      ActivityProc.OutMsg.clientMessage "activity" "ab" ∉
        ([] : List ActivityProc.OutMsg) ∧
      ActivityProc.doneSignals
        { pubkeyHex := "ab", validatorActive := false, stopClosed := true } = 1 :=
  C4_exit_quiescence "ab" (ActivityProc.initProcess "ab")
    { pubkeyHex := "ab", validatorActive := false, stopClosed := true } []
    (ActivityProc.statusMsg "ab" "exited")
    [ActivityProc.BusEvent.message ActivityProc.epochMsg]
    { pubkeyHex := "ab", validatorActive := false, stopClosed := true } []
    (by decide) (by decide) (by decide) (by decide) (by decide) (by decide)
    (by decide)

/-- C5: the claim says a second trigger of the stop path (two
exit-family `validator_status` messages for this key processed in
sequence) must not panic.  On the code the second exit-family message
executes `close(p.stop)` on the already-closed channel, a Go runtime
panic, modelled here as the run evaluating to `none`. -/
theorem C5_double_exit_panics :
    ActivityProc.runEvents (ActivityProc.initProcess "ab")
      [ActivityProc.BusEvent.message (ActivityProc.statusMsg "ab" "exited"),
       ActivityProc.BusEvent.message (ActivityProc.statusMsg "ab" "exited")] =
      none := by
  decide

/-- C1 counterexample: the claim's prefix-0x01 rule, read with exact
arithmetic, says minipool `mpdWrap` (creation balance 0 gwei,
matching credentials, combined balance exactly 32 ETH) is not
scrubbed; the code scrubs it, because `creationBalanceGwei - buffer`
is computed in uint64 arithmetic and wraps. -/
theorem C1_counterexample :
    Watchtower.checkSoloMigrations Watchtower.sWrap =
        [("mp1", Watchtower.ScrubReason.balanceDecreased)] ∧
      ¬ Watchtower.specElScrub Watchtower.mpdWrap Watchtower.vWrap ∧
      Watchtower.lookupValidator Watchtower.sWrap.ValidatorDetails
          Watchtower.mpdWrap.Pubkey = Watchtower.vWrap ∧
      Watchtower.mpdWrap.IsVacant = true ∧
      Watchtower.mpdWrap.Status ≠ Watchtower.MinipoolStatus.Dissolved ∧
      Watchtower.vWrap.Exists = true ∧
      Watchtower.vWrap.Status = Watchtower.validatorStateActiveOngoing ∧
      Watchtower.vWrap.WithdrawalCredentials.headD 0 = Watchtower.credTypeEL := by
  refine ⟨by decide, ?_, by decide, by decide, by decide, by decide, by decide, by decide⟩
  unfold Watchtower.specElScrub
  decide

/-- C1 (amended): for every vacant, non-dissolved minipool whose
validator record exists and is active_ongoing, the classification
decides scrub as follows — a withdrawal-credential type byte 0x00
scrubs iff the snapshot block time exceeds the status-change time
plus 0.85 times the promotion scrub period; a type byte 0x01 scrubs
iff the credentials differ from the expected credentials, or the
combined validator-plus-minipool gwei balance (computed in uint64
arithmetic) is below 32_000_000_000, or that combined balance is
below `creationBalanceGwei - 1_000_000` computed in uint64
wrap-around arithmetic; any other type byte always scrubs. -/
theorem C1_scrub_classification (s : Watchtower.NetworkState)
    (mpd : Watchtower.MinipoolDetails)
    (h1 : mpd.Status ≠ Watchtower.MinipoolStatus.Dissolved)
    (h2 : mpd.IsVacant = true)
    (h3 : (Watchtower.lookupValidator s.ValidatorDetails mpd.Pubkey).Exists = true)
    (h4 : (Watchtower.lookupValidator s.ValidatorDetails mpd.Pubkey).Status =
      Watchtower.validatorStateActiveOngoing) :
    ((Watchtower.lookupValidator s.ValidatorDetails mpd.Pubkey).WithdrawalCredentials.headD 0 =
        Watchtower.credTypeBLS →
      (Watchtower.classify s mpd ≠ [] ↔ Watchtower.specBlsTimedOut s mpd)) ∧
    ((Watchtower.lookupValidator s.ValidatorDetails mpd.Pubkey).WithdrawalCredentials.headD 0 =
        Watchtower.credTypeEL →
      (Watchtower.classify s mpd ≠ [] ↔
        ((Watchtower.lookupValidator s.ValidatorDetails mpd.Pubkey).WithdrawalCredentials ≠
            mpd.WithdrawalCredentials ∨
          Watchtower.currentBalanceGwei
            (Watchtower.lookupValidator s.ValidatorDetails mpd.Pubkey) mpd <
            Watchtower.balanceThresholdGwei ∨
          Watchtower.currentBalanceGwei
            (Watchtower.lookupValidator s.ValidatorDetails mpd.Pubkey) mpd <
            Watchtower.wrappedCreationMinusBuffer mpd))) ∧
    ((Watchtower.lookupValidator s.ValidatorDetails mpd.Pubkey).WithdrawalCredentials.headD 0 ≠
        Watchtower.credTypeBLS →
      (Watchtower.lookupValidator s.ValidatorDetails mpd.Pubkey).WithdrawalCredentials.headD 0 ≠
        Watchtower.credTypeEL →
      Watchtower.classify s mpd ≠ []) := by
  have hch := Watchtower.checkMinipool_active (Watchtower.snapshotBlockTime s)
    (Watchtower.scrubThresholdSeconds s) s.ValidatorDetails mpd h1 h2 h3 h4
  refine ⟨?_, ?_, ?_⟩
  · intro hb
    rw [Watchtower.classify, hch, if_pos hb]
    split_ifs with ht
    · exact iff_of_true (by simp)
        ((Watchtower.scrubThresholdEquiv _ _ _).mp ht)
    · exact iff_of_false (by simp)
        (fun hq => ht ((Watchtower.scrubThresholdEquiv _ _ _).mpr hq))
  · intro hb
    have hbls : ¬((Watchtower.lookupValidator s.ValidatorDetails mpd.Pubkey).WithdrawalCredentials.headD 0 =
        Watchtower.credTypeBLS) := by
      rw [hb]; decide
    rw [Watchtower.classify, hch, if_neg hbls, if_pos hb]
    split_ifs with hA hB hC
    · exact iff_of_true (by simp) (Or.inl hA)
    · exact iff_of_true (by simp) (Or.inr (Or.inl hB))
    · exact iff_of_true (by simp) (Or.inr (Or.inr hC))
    · refine iff_of_false (by simp) ?_
      intro hor
      rcases hor with hx | hx | hx
      exacts [hA hx, hB hx, hC hx]
  · intro hbls hel
    rw [Watchtower.classify, hch, if_neg hbls, if_neg hel]
    simp

/-- Witness for C1 (amended) at the concrete BLS snapshot `sBls`:
all hypotheses hold there and the theorem applies. -/
theorem C1_scrub_classification_witness :
    ((Watchtower.lookupValidator Watchtower.sBls.ValidatorDetails
        Watchtower.mpdBls.Pubkey).WithdrawalCredentials.headD 0 =
        Watchtower.credTypeBLS →
      (Watchtower.classify Watchtower.sBls Watchtower.mpdBls ≠ [] ↔
        Watchtower.specBlsTimedOut Watchtower.sBls Watchtower.mpdBls)) ∧
    ((Watchtower.lookupValidator Watchtower.sBls.ValidatorDetails
        Watchtower.mpdBls.Pubkey).WithdrawalCredentials.headD 0 =
        Watchtower.credTypeEL →
      (Watchtower.classify Watchtower.sBls Watchtower.mpdBls ≠ [] ↔
        ((Watchtower.lookupValidator Watchtower.sBls.ValidatorDetails
            Watchtower.mpdBls.Pubkey).WithdrawalCredentials ≠
            Watchtower.mpdBls.WithdrawalCredentials ∨
          Watchtower.currentBalanceGwei
            (Watchtower.lookupValidator Watchtower.sBls.ValidatorDetails
              Watchtower.mpdBls.Pubkey) Watchtower.mpdBls <
            Watchtower.balanceThresholdGwei ∨
          Watchtower.currentBalanceGwei
            (Watchtower.lookupValidator Watchtower.sBls.ValidatorDetails
              Watchtower.mpdBls.Pubkey) Watchtower.mpdBls <
            Watchtower.wrappedCreationMinusBuffer Watchtower.mpdBls))) ∧
    ((Watchtower.lookupValidator Watchtower.sBls.ValidatorDetails
        Watchtower.mpdBls.Pubkey).WithdrawalCredentials.headD 0 ≠
        Watchtower.credTypeBLS →
      (Watchtower.lookupValidator Watchtower.sBls.ValidatorDetails
        Watchtower.mpdBls.Pubkey).WithdrawalCredentials.headD 0 ≠
        Watchtower.credTypeEL →
      Watchtower.classify Watchtower.sBls Watchtower.mpdBls ≠ []) :=
  C1_scrub_classification Watchtower.sBls Watchtower.mpdBls
    (by decide) (by decide) (by decide) (by decide)

/-- C6: the claim says a vacant, non-dissolved minipool with no
validator record is classified as scrub with the unseen reason with
exactly one scrub decision in that scan.  The unseen branch of the
code lacks a `continue`, so the scan issues a second, wrong-state
scrub decision for the same minipool (the zero-value status ""
observed for the missing record). -/
theorem C6_unseen_double_scrub :
    Watchtower.checkSoloMigrations Watchtower.sUnseen =
      [("mp6", Watchtower.ScrubReason.notSeen),
       ("mp6", Watchtower.ScrubReason.wrongState "")] := by
  decide

/-- C7 counterexample: with environment `envFail` the scrub
submission for minipool "mp6" returns an error, yet the scan's error
log stays empty (the claim says the error is logged with the task
name), while classification of the remaining minipool "mp7" still
happens and the scan returns nil. -/
theorem C7_counterexample :
    (Watchtower.scrubVacantMinipool Watchtower.envFail "mp6"
        Watchtower.ScrubReason.notSeen).result = Except.error "boom" ∧
      (Watchtower.runScan Watchtower.envFail Watchtower.sTwo).errLogs = [] ∧
      (Watchtower.runScan Watchtower.envFail Watchtower.sTwo).attempts =
        [("mp6", Watchtower.ScrubReason.notSeen),
         ("mp6", Watchtower.ScrubReason.wrongState ""),
         ("mp7", Watchtower.ScrubReason.notSeen),
         ("mp7", Watchtower.ScrubReason.wrongState "")] ∧
      (Watchtower.runScan Watchtower.envFail Watchtower.sTwo).result =
        Except.ok () := by
  decide

/-- C7 (amended): an error from a single minipool's scrub transaction
submission does not abort classification of the remaining minipools
— every scrub decision of the scan is attempted regardless of the
transaction environment — but the error is discarded, not logged:
the call sites drop `scrubVacantMinipool`'s return value, so nothing
is written to the error logger and the scan returns nil. -/
theorem C7_errors_discarded (env : Watchtower.TxEnv)
    (s : Watchtower.NetworkState) :
    (Watchtower.runScan env s).attempts = Watchtower.checkSoloMigrations s ∧
      (Watchtower.runScan env s).errLogs = [] ∧
      (Watchtower.runScan env s).result = Except.ok () := by
  obtain ⟨ha, he, hr⟩ :=
    Watchtower.scrubAccum_foldl env (Watchtower.checkSoloMigrations s)
      { attempts := [], errLogs := [], submitted := [], result := Except.ok () }
  refine ⟨?_, ?_, ?_⟩
  · rw [Watchtower.runScan]; rw [ha]; simp
  · rw [Watchtower.runScan]; rw [he]
  · rw [Watchtower.runScan]; rw [hr]

/-- C8: in `scrubVacantMinipool`, when the configured max-fee check /
confirmation gate vetoes the submission, the call returns nil and no
transaction is submitted; and a gas-estimation failure returns an
error with no transaction submitted. -/
theorem C8_gas_gate (env : Watchtower.TxEnv) (addr : String)
    (r : Watchtower.ScrubReason) :
    (env.newMinipool addr = Except.ok () →
      env.getNodeAccountTransactor = Except.ok () →
      ∀ g, env.estimateVoteScrubGas addr = Except.ok g →
      env.printAndCheckGasInfo addr = false →
      (Watchtower.scrubVacantMinipool env addr r).result = Except.ok () ∧
        (Watchtower.scrubVacantMinipool env addr r).submitted = []) ∧
    (env.newMinipool addr = Except.ok () →
      env.getNodeAccountTransactor = Except.ok () →
      ∀ e, env.estimateVoteScrubGas addr = Except.error e →
      (Watchtower.scrubVacantMinipool env addr r).result =
          Except.error
            ("could not estimate the gas required to scrub the minipool: " ++ e) ∧
        (Watchtower.scrubVacantMinipool env addr r).submitted = []) := by
  constructor
  · intro hnm ht g hg hgate
    unfold Watchtower.scrubVacantMinipool
    rw [hnm, ht, hg, hgate]
    exact ⟨rfl, rfl⟩
  · intro hnm ht e hg
    unfold Watchtower.scrubVacantMinipool
    rw [hnm, ht, hg]
    exact ⟨rfl, rfl⟩

/-- Witness for C8 at concrete environments: a vetoing gate returns
nil with nothing submitted, and a failing estimation returns the
error with nothing submitted. -/
theorem C8_gas_gate_witness :
    ((Watchtower.scrubVacantMinipool Watchtower.envVeto "mp1"
        Watchtower.ScrubReason.notSeen).result = Except.ok () ∧
      (Watchtower.scrubVacantMinipool Watchtower.envVeto "mp1"
        Watchtower.ScrubReason.notSeen).submitted = []) ∧
    ((Watchtower.scrubVacantMinipool Watchtower.envEstFail "mp1"
        Watchtower.ScrubReason.notSeen).result =
        Except.error
          ("could not estimate the gas required to scrub the minipool: " ++ "no gas") ∧
      (Watchtower.scrubVacantMinipool Watchtower.envEstFail "mp1"
        Watchtower.ScrubReason.notSeen).submitted = []) :=
  ⟨(C8_gas_gate Watchtower.envVeto "mp1" Watchtower.ScrubReason.notSeen).1
      rfl rfl 21000 rfl rfl,
    (C8_gas_gate Watchtower.envEstFail "mp1" Watchtower.ScrubReason.notSeen).2
      rfl rfl "no gas" rfl⟩

/-- C9: classification is a deterministic function of the snapshot
alone: it does not read the ambient wall clock (same result for any
two clock readings, equal to the clock-free function), and the
snapshot's time context is derived from the beacon genesis time,
seconds-per-slot and slot number. -/
theorem C9_determinism (now₁ now₂ : Int) (s : Watchtower.NetworkState) :
    Watchtower.checkSoloMigrationsWithClock now₁ s =
        Watchtower.checkSoloMigrationsWithClock now₂ s ∧
      Watchtower.checkSoloMigrationsWithClock now₁ s =
        Watchtower.checkSoloMigrations s ∧
      Watchtower.snapshotBlockTime s =
        Watchtower.toInt64 s.BeaconConfig.GenesisTime +
          ((s.BeaconSlotNumber * s.BeaconConfig.SecondsPerSlot) % 2^64 : Nat) :=
  ⟨rfl, rfl, rfl⟩

/-- C10: for a vacant minipool reaching the balance check whose
pre-migration balance is below 1_000_000 gwei, the uint64 subtraction
`creationBalanceGwei - buffer` wraps modulo 2^64: the comparison
value equals `2^64 - (1_000_000 - creationBalanceGwei)`, hence is at
least `2^64 - 1_000_000`, and the minipool is scrubbed even though
its combined balance has not decreased. -/
theorem C10_balance_wrap (s : Watchtower.NetworkState)
    (mpd : Watchtower.MinipoolDetails)
    (h1 : mpd.Status ≠ Watchtower.MinipoolStatus.Dissolved)
    (h2 : mpd.IsVacant = true)
    (h3 : (Watchtower.lookupValidator s.ValidatorDetails mpd.Pubkey).Exists = true)
    (h4 : (Watchtower.lookupValidator s.ValidatorDetails mpd.Pubkey).Status =
      Watchtower.validatorStateActiveOngoing)
    (h5 : (Watchtower.lookupValidator s.ValidatorDetails mpd.Pubkey).WithdrawalCredentials =
      mpd.WithdrawalCredentials)
    (h6 : mpd.WithdrawalCredentials.headD 0 = Watchtower.credTypeEL)
    (h7 : mpd.PreMigrationBalance / 1000000000 < 1000000)
    (h8 : mpd.PreMigrationBalance / 1000000000 ≤
      (Watchtower.lookupValidator s.ValidatorDetails mpd.Pubkey).Balance +
        mpd.Balance / 1000000000)
    (h9 : (Watchtower.lookupValidator s.ValidatorDetails mpd.Pubkey).Balance +
      mpd.Balance / 1000000000 < 2^64 - 1000000) :
    Watchtower.wrappedCreationMinusBuffer mpd =
        2^64 - (1000000 - mpd.PreMigrationBalance / 1000000000) ∧
      2^64 - 1000000 ≤ Watchtower.wrappedCreationMinusBuffer mpd ∧
      Watchtower.classify s mpd ≠ [] := by
  have hwrap : Watchtower.wrappedCreationMinusBuffer mpd =
      2^64 - (1000000 - mpd.PreMigrationBalance / 1000000000) := by
    unfold Watchtower.wrappedCreationMinusBuffer Watchtower.creationBalanceGwei
      Watchtower.migrationBalanceBufferGwei
    omega
  refine ⟨hwrap, by omega, ?_⟩
  have hch := Watchtower.checkMinipool_active (Watchtower.snapshotBlockTime s)
    (Watchtower.scrubThresholdSeconds s) s.ValidatorDetails mpd h1 h2 h3 h4
  have hb : (Watchtower.lookupValidator s.ValidatorDetails mpd.Pubkey).WithdrawalCredentials.headD 0 =
      Watchtower.credTypeEL := by rw [h5]; exact h6
  have hbls : ¬((Watchtower.lookupValidator s.ValidatorDetails mpd.Pubkey).WithdrawalCredentials.headD 0 =
      Watchtower.credTypeBLS) := by rw [hb]; decide
  rw [Watchtower.classify, hch, if_neg hbls, if_pos hb, if_neg (by simp [h5])]
  have hcur : Watchtower.currentBalanceGwei
      (Watchtower.lookupValidator s.ValidatorDetails mpd.Pubkey) mpd =
      (Watchtower.lookupValidator s.ValidatorDetails mpd.Pubkey).Balance +
        mpd.Balance / 1000000000 := by
    unfold Watchtower.currentBalanceGwei Watchtower.minipoolBalanceGwei
    omega
  split_ifs with hA hB
  · simp
  · simp
  · exfalso
    rw [hcur, hwrap] at hB
    omega

/-- Witness for C10 at the concrete snapshot `sWrap`: creation
balance 0 gwei, combined balance 32 ETH. -/
theorem C10_balance_wrap_witness :
    Watchtower.wrappedCreationMinusBuffer Watchtower.mpdWrap =
        2^64 - (1000000 - Watchtower.mpdWrap.PreMigrationBalance / 1000000000) ∧
      2^64 - 1000000 ≤ Watchtower.wrappedCreationMinusBuffer Watchtower.mpdWrap ∧
      Watchtower.classify Watchtower.sWrap Watchtower.mpdWrap ≠ [] :=
  C10_balance_wrap Watchtower.sWrap Watchtower.mpdWrap
    (by decide) (by decide) (by decide) (by decide) (by decide) (by decide)
    (by decide) (by decide) (by decide)

/-- C2: the claim says at most one scan is ever in flight for every
interleaving.  Counterexample interleaving: both invocations pass the
guard (which releases the lock before the spawned goroutine sets the
flag), then both goroutines set the flag and scan — the reached state
has both goroutines scanning concurrently. -/
theorem C2_concurrent_scans_reachable :
    Watchtower.execDuty Watchtower.dutyInit Watchtower.doubleScanTrace =
      some { isRunning := true, invA := Watchtower.InvPc.spawned,
             invB := Watchtower.InvPc.spawned,
             goA := Watchtower.GoPc.scanning,
             goB := Watchtower.GoPc.scanning } := by
  decide
